import Mathlib

/-!
Verification of the tessie-mcp-server core (src/src/index.ts).

The embedding follows the source closely:
* the auto-wake orchestration (`isVehicleAwake` / `ensureAwake` / `command`,
  index.ts lines 128-173) is modelled as a trace-producing function over an
  oracle `awake : Nat → Bool` giving the result of the n-th wake-status check;
  network calls are instantaneous and each `setTimeout` sleep advances the
  clock by `WAKE_POLL_INTERVAL_MS`, so `Date.now() < deadline` becomes
  `elapsed < WAKE_TIMEOUT_MS` with `elapsed` counted from the start of the
  poll loop;
* the HTTP transport (`tessieRequest` / `get`, lines 78-118) is modelled as a
  pure function of the configured token and the remote response, returning the
  list of outbound requests it issues together with its result;
* VIN resolution (`VinSchema`, lines 179-185) keeps JavaScript's falsiness of
  the empty string in `val || getDefaultVin()` and `if (!vin)`.
-/

namespace Tessie

/-- Poll interval of the wake loop in milliseconds (index.ts line 128). -/
def WAKE_POLL_INTERVAL_MS : Nat := 3000

/-- Ceiling of the wake loop in milliseconds (index.ts line 129). -/
def WAKE_TIMEOUT_MS : Nat := 90000

/-- Network-visible events of one orchestration run: a wake-status check
(`isVehicleAwake`, a GET of `/vin/status`), the wake command
(`POST /vin/wake`), and the mutating command POST sent by `command`.
Each event carries the elapsed time in milliseconds at which it occurs. -/
inductive Event where
  | statusCheck (time : Nat) (result : Bool)
  | wakeCommand (time : Nat)
  | mutatingPost (time : Nat) (path : String)
deriving DecidableEq, Repr

/-- Event is a wake-status check. -/
def Event.isCheck : Event → Bool
  | Event.statusCheck _ _ => true
  | _ => false

/-- Event is the wake command. -/
def Event.isWake : Event → Bool
  | Event.wakeCommand _ => true
  | _ => false

/-- Event is a mutating command POST. -/
def Event.isPost : Event → Bool
  | Event.mutatingPost _ _ => true
  | _ => false

/-- Timeout message thrown by `ensureAwake` (index.ts lines 157-160). -/
def wakeTimeoutMessage (vin : String) : String :=
  "Vehicle " ++ vin ++ " did not wake within " ++ toString (WAKE_TIMEOUT_MS / 1000) ++ "s. " ++
    "Try calling wake_vehicle manually and retrying."

/-- Outcome of one `ensureAwake` run: normal return, or the thrown timeout error. -/
inductive WakeOutcome where
  | ready
  | timedOut (msg : String)
deriving DecidableEq, Repr

/-- Poll loop of `ensureAwake` (index.ts lines 151-155): while the deadline has
not passed, sleep one interval and re-check the status.  `idx` is the index of
the next status check in the run, `elapsed` the time since polling began.
Returns the events of the loop, the outcome, and the final elapsed time. -/
def pollLoop (vin : String) (awake : Nat → Bool) (idx : Nat) (elapsed : Nat) :
    List Event × WakeOutcome × Nat :=
  if _h : elapsed < WAKE_TIMEOUT_MS then
    if awake idx then
      ([Event.statusCheck (elapsed + WAKE_POLL_INTERVAL_MS) true], WakeOutcome.ready,
        elapsed + WAKE_POLL_INTERVAL_MS)
    else
      (Event.statusCheck (elapsed + WAKE_POLL_INTERVAL_MS) false ::
          (pollLoop vin awake (idx + 1) (elapsed + WAKE_POLL_INTERVAL_MS)).1,
        (pollLoop vin awake (idx + 1) (elapsed + WAKE_POLL_INTERVAL_MS)).2)
  else
    ([], WakeOutcome.timedOut (wakeTimeoutMessage vin), elapsed)
termination_by WAKE_TIMEOUT_MS - elapsed
decreasing_by
  simp only [WAKE_POLL_INTERVAL_MS, WAKE_TIMEOUT_MS] at *
  omega

/-- Wake orchestration `ensureAwake` (index.ts lines 144-161): one initial
status check; if awake return at once, otherwise send the wake command and
enter the poll loop. -/
def ensureAwake (vin : String) (awake : Nat → Bool) : List Event × WakeOutcome × Nat :=
  if awake 0 then
    ([Event.statusCheck 0 true], WakeOutcome.ready, 0)
  else
    let r := pollLoop vin awake 1 0
    (Event.statusCheck 0 false :: Event.wakeCommand 0 :: r.1, r.2)

/-- Command dispatcher `command` (index.ts lines 166-173): run `ensureAwake`;
on success send the mutating POST, otherwise propagate the failure. -/
def command (vin : String) (awake : Nat → Bool) (cmdPath : String) :
    List Event × WakeOutcome × Nat :=
  let r := ensureAwake vin awake
  match r.2.1 with
  | WakeOutcome.ready => (r.1 ++ [Event.mutatingPost r.2.2 cmdPath], WakeOutcome.ready, r.2.2)
  | WakeOutcome.timedOut m => (r.1, WakeOutcome.timedOut m, r.2.2)

/-- Scalar query-parameter values of `TessieRequestOptions.params`
(index.ts line 74): string, number or boolean. -/
inductive Scalar where
  | str (s : String)
  | num (n : Int)
  | bool (b : Bool)
deriving DecidableEq, Repr

/-- JavaScript stringification `String(value)` applied to a present scalar
(index.ts line 90). -/
def scalarToString : Scalar → String
  | Scalar.str s => s
  | Scalar.num n => toString n
  | Scalar.bool b => if b then "true" else "false"

/-- Outbound HTTP request as built by `tessieRequest` (the Authorization and
Accept headers are attached to every request and carry no per-call data). -/
structure HttpReq where
  method : String
  path : String
  query : List (String × String)
deriving DecidableEq, Repr

/-- Remote response as observed by `tessieRequest`: status code, whether the
content-type declares JSON, and the body text. -/
structure HttpResp where
  status : Nat
  contentTypeJson : Bool
  body : String
deriving DecidableEq, Repr

/-- Successful result of `tessieRequest` (index.ts lines 109-113): the parsed
JSON body, or the raw text wrapped under the `raw` key. -/
inductive RespVal where
  | json (body : String)
  | raw (text : String)
deriving DecidableEq, Repr

/-- Query-string construction of `tessieRequest` (index.ts lines 87-93): each
entry with a present value is set stringified, `undefined` values are skipped. -/
def buildQuery (params : List (String × Option Scalar)) : List (String × String) :=
  params.filterMap fun p =>
    match p.2 with
    | none => none
    | some v => some (p.1, scalarToString v)

/-- Error thrown by `getToken` when `TESSIE_API_TOKEN` is unset
(index.ts lines 36-39). -/
def configErrorMessage : String :=
  "TESSIE_API_TOKEN environment variable is required. " ++
    "Get your token at https://dash.tessie.com/settings/api"

/-- Error thrown by `tessieRequest` on a non-2xx response (index.ts line 106). -/
def remoteErrorMessage (status : Nat) (text : String) : String :=
  "Tessie API error " ++ toString status ++ ": " ++ text

/-- Transport helper `tessieRequest` (index.ts lines 78-114), as a function of
the configured token and the remote response.  Returns the outbound requests
it issues together with its result: with no token it throws before any fetch;
otherwise it issues exactly one request and classifies the response by
`response.ok` (status 200-299). -/
def tessieRequest (token : Option String) (method : String) (path : String)
    (params : List (String × Option Scalar)) (resp : HttpResp) :
    List HttpReq × Except String RespVal :=
  match token with
  | none => ([], Except.error configErrorMessage)
  | some _ =>
    let req : HttpReq := { method := method, path := path, query := buildQuery params }
    if 200 ≤ resp.status ∧ resp.status ≤ 299 then
      if resp.contentTypeJson then
        ([req], Except.ok (RespVal.json resp.body))
      else
        ([req], Except.ok (RespVal.raw resp.body))
    else
      ([req], Except.error (remoteErrorMessage resp.status resp.body))

/-- GET helper (index.ts lines 116-118). -/
def get (token : Option String) (path : String)
    (params : List (String × Option Scalar)) (resp : HttpResp) :
    List HttpReq × Except String RespVal :=
  tessieRequest token "GET" path params resp

/-- Read tool `get_vehicle_state` (index.ts lines 309-320): a direct GET of
`/vin/state` with the optional `use_cache` parameter. -/
def get_vehicle_state (token : Option String) (vin : String) (use_cache : Option Bool)
    (resp : HttpResp) : List HttpReq × Except String RespVal :=
  get token ("/" ++ vin ++ "/state") [("use_cache", use_cache.map Scalar.bool)] resp

/-- Read tool `get_location` (index.ts lines 360-368): a direct GET of
`/vin/location` with no parameters. -/
def get_location (token : Option String) (vin : String) (resp : HttpResp) :
    List HttpReq × Except String RespVal :=
  get token ("/" ++ vin ++ "/location") [] resp

/-- Result of `get_full_status` (index.ts lines 434-438): one slot per
underlying read; a fulfilled slot carries the value, a rejected slot carries
the error descriptor built from the rejection message. -/
structure FullStatus where
  battery : Except String RespVal
  location : Except String RespVal
  state : Except String RespVal
deriving Repr

/-- Composite tool `get_full_status` (index.ts lines 420-442): fans out the
three reads with `Promise.allSettled` and aggregates the settled results; the
handler itself always returns successfully. -/
def get_full_status (token : Option String) (vin : String)
    (respBattery respLocation respState : HttpResp) :
    List HttpReq × Except String FullStatus :=
  let b := get token ("/" ++ vin ++ "/battery") [] respBattery
  let l := get token ("/" ++ vin ++ "/location") [] respLocation
  let s := get token ("/" ++ vin ++ "/state") [("use_cache", some (Scalar.bool true))] respState
  (b.1 ++ l.1 ++ s.1,
   Except.ok { battery := b.2, location := l.2, state := s.2 })

/-- Error thrown by `VinSchema` when no VIN resolves (index.ts line 182). -/
def vinRequiredMessage : String :=
  "VIN is required. Provide it as a parameter or set TESSIE_DEFAULT_VIN environment variable."

/-- JavaScript `a || b` on optional strings: the empty string is falsy. -/
def jsOrString (a b : Option String) : Option String :=
  match a with
  | some s => if s = "" then b else some s
  | none => b

/-- VIN resolution of `VinSchema` (index.ts lines 179-185): `val ||
getDefaultVin()`, then `if (!vin) throw`. -/
def resolveVin (explicitVin defaultVin : Option String) : Except String String :=
  match jsOrString explicitVin defaultVin with
  | some s => if s = "" then Except.error vinRequiredMessage else Except.ok s
  | none => Except.error vinRequiredMessage

/-- Behaviour of a vehicle-scoped tool call: the schema transform resolves the
VIN (throwing before the handler runs and before any network call), then the
handler runs with the resolved VIN, producing its requests and its value. -/
def runVehicleTool {ρ : Type} (explicitVin defaultVin : Option String)
    (handler : String → List HttpReq × ρ) : List HttpReq × Except String ρ :=
  match resolveVin explicitVin defaultVin with
  | Except.error e => ([], Except.error e)
  | Except.ok vin =>
    let r := handler vin
    (r.1, Except.ok r.2)

/-- Example handler used by witnesses: the `get_vehicle_status` read, which
issues one GET of the status endpoint for the resolved VIN. -/
def statusHandler (vin : String) : List HttpReq × Nat :=
  ([{ method := "GET", path := "/" ++ vin ++ "/status", query := [] }], 0)

/-- Concrete request used by the C5 witness. -/
def wStateReq : HttpReq :=
  { method := "GET", path := "/5YJ3E1EA7JF000001/state", query := [("use_cache", "true")] }

/-- Concrete response used by the C5 witness. -/
def wStateResp : HttpResp := { status := 200, contentTypeJson := true, body := "stateJson" }

/-- Concrete response used by the C5 witness. -/
def wLocResp : HttpResp := { status := 200, contentTypeJson := true, body := "locJson" }

/-- Oracle of a vehicle that is asleep on the initial check and awake on the
first poll-loop check. -/
def sleepyOracle : Nat → Bool := fun n => n == 1

/-- Every event produced by the poll loop is a status check. -/
lemma pollLoop_mem (vin : String) (awake : Nat → Bool) (idx elapsed : Nat) :
    ∀ e ∈ (pollLoop vin awake idx elapsed).1, ∃ t b, e = Event.statusCheck t b := by
  induction idx, elapsed using pollLoop.induct vin awake with
  | case1 idx elapsed h ha =>
    rw [pollLoop]
    simp only [dif_pos h, if_pos ha]
    intro e he
    simp only [List.mem_singleton] at he
    exact ⟨_, _, he⟩
  | case2 idx elapsed h ha ih =>
    intro e he
    rw [pollLoop] at he
    simp only [dif_pos h, if_neg ha, List.mem_cons] at he
    rcases he with rfl | hm
    · exact ⟨_, _, rfl⟩
    · exact ih e hm
  | case3 idx elapsed h =>
    rw [pollLoop]
    simp only [dif_neg h]
    intro e he
    simp at he

/-- When the poll loop succeeds, its last event is the status check that
reported awake, timed at the loop's final elapsed time. -/
lemma pollLoop_ready_last (vin : String) (awake : Nat → Bool) (idx elapsed : Nat)
    (h : (pollLoop vin awake idx elapsed).2.1 = WakeOutcome.ready) :
    (pollLoop vin awake idx elapsed).1.getLast? =
      some (Event.statusCheck (pollLoop vin awake idx elapsed).2.2 true) := by
  induction idx, elapsed using pollLoop.induct vin awake with
  | case1 idx elapsed hlt ha =>
    rw [pollLoop]
    simp only [dif_pos hlt, if_pos ha]
    rfl
  | case2 idx elapsed hlt ha ih =>
    rw [pollLoop] at h ⊢
    simp only [dif_pos hlt, if_neg ha] at h ⊢
    have hlast := ih h
    cases hne : (pollLoop vin awake (idx + 1) (elapsed + WAKE_POLL_INTERVAL_MS)).1 with
    | nil =>
      rw [hne] at hlast
      simp at hlast
    | cons y ys =>
      rw [hne] at hlast
      rw [List.getLast?_cons_cons]
      exact hlast
  | case3 idx elapsed hlt =>
    rw [pollLoop] at h
    simp only [dif_neg hlt] at h
    cases h

/-- Closed form of the poll loop under an oracle that never reports awake:
entered with `elapsed = interval * j` and `j + k = 30`, it performs the
remaining `k` checks at consecutive interval multiples and times out at
exactly the 90-second ceiling. -/
lemma pollLoop_never (vin : String) (awake : Nat → Bool) (hfa : ∀ n, awake n = false) :
    ∀ k idx j, j + k = 30 →
      pollLoop vin awake idx (WAKE_POLL_INTERVAL_MS * j) =
        ((List.range k).map
            (fun i => Event.statusCheck (WAKE_POLL_INTERVAL_MS * (j + i + 1)) false),
         WakeOutcome.timedOut (wakeTimeoutMessage vin), WAKE_TIMEOUT_MS) := by
  intro k
  induction k with
  | zero =>
    intro idx j hj
    rw [pollLoop]
    have hj30 : j = 30 := by omega
    subst hj30
    have hnot : ¬ (WAKE_POLL_INTERVAL_MS * 30 < WAKE_TIMEOUT_MS) := by
      simp [WAKE_POLL_INTERVAL_MS, WAKE_TIMEOUT_MS]
    simp only [dif_neg hnot, List.range_zero, List.map_nil]
    have heq : WAKE_POLL_INTERVAL_MS * 30 = WAKE_TIMEOUT_MS := by
      simp [WAKE_POLL_INTERVAL_MS, WAKE_TIMEOUT_MS]
    rw [heq]
  | succ k ih =>
    intro idx j hj
    rw [pollLoop]
    have hlt : WAKE_POLL_INTERVAL_MS * j < WAKE_TIMEOUT_MS := by
      simp only [WAKE_POLL_INTERVAL_MS, WAKE_TIMEOUT_MS]
      omega
    have hstep : WAKE_POLL_INTERVAL_MS * j + WAKE_POLL_INTERVAL_MS =
        WAKE_POLL_INTERVAL_MS * (j + 1) := by ring
    simp only [dif_pos hlt, hfa idx, Bool.false_eq_true, if_false, hstep,
      ih (idx + 1) (j + 1) (by omega)]
    have hhead : Tessie.WAKE_POLL_INTERVAL_MS * (j + 1) =
        Tessie.WAKE_POLL_INTERVAL_MS * (j + 0 + 1) := by
      norm_num
    rw [hhead]
    have htail : ∀ i : Nat,
        ((fun i => Event.statusCheck (WAKE_POLL_INTERVAL_MS * (j + i + 1)) false) ∘ Nat.succ) i =
          (fun i => Event.statusCheck (WAKE_POLL_INTERVAL_MS * (j + 1 + i + 1)) false) i := by
      intro i
      simp only [Function.comp_apply]
      have harith : j + Nat.succ i + 1 = j + 1 + i + 1 := by omega
      rw [harith]
    rw [List.map_congr_left (fun i _ => (htail i).symm)]
    rw [List.range_succ_eq_map]
    simp only [List.map_cons, List.map_map]

/-- The wake orchestration itself never sends a mutating command POST. -/
lemma ensureAwake_no_post (vin : String) (awake : Nat → Bool) :
    (ensureAwake vin awake).1.countP Event.isPost = 0 := by
  rw [List.countP_eq_zero]
  intro e he
  by_cases h0 : awake 0 = true
  · simp only [ensureAwake, if_pos h0, List.mem_singleton] at he
    subst he
    simp [Event.isPost]
  · simp only [ensureAwake, if_neg h0, List.mem_cons] at he
    rcases he with rfl | rfl | hm
    · simp [Event.isPost]
    · simp [Event.isPost]
    · obtain ⟨t, b, rfl⟩ := pollLoop_mem vin awake 1 0 e hm
      simp [Event.isPost]

/-- When the wake orchestration succeeds, its last event is a status check
that reported awake. -/
lemma ensureAwake_ready_last (vin : String) (awake : Nat → Bool)
    (h : (ensureAwake vin awake).2.1 = WakeOutcome.ready) :
    (ensureAwake vin awake).1.getLast? =
      some (Event.statusCheck (ensureAwake vin awake).2.2 true) := by
  by_cases h0 : awake 0 = true
  · simp [ensureAwake, h0]
  · simp only [ensureAwake, if_neg h0] at h ⊢
    have hlast := pollLoop_ready_last vin awake 1 0 h
    cases hne : (pollLoop vin awake 1 0).1 with
    | nil =>
      rw [hne] at hlast
      simp at hlast
    | cons y ys =>
      rw [hne] at hlast
      rw [List.getLast?_cons_cons, List.getLast?_cons_cons]
      exact hlast

/-- Timeout message spelled out: it names the vehicle, the 90-second ceiling,
and the manual `wake_vehicle` retry. -/
lemma wakeTimeoutMessage_eq (vin : String) :
    wakeTimeoutMessage vin =
      "Vehicle " ++ vin ++
        " did not wake within 90s. Try calling wake_vehicle manually and retrying." := by
  unfold wakeTimeoutMessage
  have h90 : toString (WAKE_TIMEOUT_MS / 1000) = "90" := rfl
  rw [h90]
  simp only [String.append_assoc]
  rfl

/-- Membership in the built query string: a key appears with value `s`
exactly when the parameter list holds it with a present scalar stringifying
to `s`. -/
lemma mem_buildQuery_iff (params : List (String × Option Scalar)) (k s : String) :
    (k, s) ∈ buildQuery params ↔ ∃ v, (k, some v) ∈ params ∧ scalarToString v = s := by
  simp only [buildQuery, List.mem_filterMap]
  constructor
  · rintro ⟨⟨k2, v2⟩, hmem, hv⟩
    cases v2 with
    | none => simp at hv
    | some v =>
      simp only [Option.some.injEq, Prod.mk.injEq] at hv
      exact ⟨v, hv.1 ▸ hmem, hv.2⟩
  · rintro ⟨v, hmem, hs⟩
    exact ⟨(k, some v), hmem, by simp [hs]⟩

/-- Requests issued by one `tessieRequest` call: none without a token, and
exactly the one built request otherwise, whatever the response. -/
lemma tessieRequest_reqs (token : Option String) (m p : String)
    (params : List (String × Option Scalar)) (resp : HttpResp) :
    (tessieRequest token m p params resp).1 =
      match token with
      | none => []
      | some _ => [{ method := m, path := p, query := buildQuery params }] := by
  cases token with
  | none => rfl
  | some t =>
    simp only [tessieRequest]
    split
    · split <;> rfl
    · rfl

/-- C1 counterexample: on a vehicle that is asleep at the initial check and
awake at the first poll-loop check, the dispatcher performs two wake-status
checks before the single mutating POST, refuting that the number of
wake-status checks before the first mutating POST is exactly one. -/
theorem C1_counterexample :
    (command "5YJ3E1EA7JF000001" sleepyOracle "/5YJ3E1EA7JF000001/command/lock").1 =
      [Event.statusCheck 0 false, Event.wakeCommand 0, Event.statusCheck 3000 true,
        Event.mutatingPost 3000 "/5YJ3E1EA7JF000001/command/lock"] ∧
    ¬ (((command "5YJ3E1EA7JF000001" sleepyOracle
          "/5YJ3E1EA7JF000001/command/lock").1.takeWhile
            (fun e => !(Event.isPost e))).countP Event.isCheck = 1) := by
  have h1 : pollLoop "5YJ3E1EA7JF000001" sleepyOracle 1 0 =
      ([Event.statusCheck 3000 true], WakeOutcome.ready, 3000) := by
    rw [pollLoop]
    norm_num [sleepyOracle, WAKE_POLL_INTERVAL_MS, WAKE_TIMEOUT_MS]
  have h0 : sleepyOracle 0 = false := rfl
  have h2 : (command "5YJ3E1EA7JF000001" sleepyOracle "/5YJ3E1EA7JF000001/command/lock").1 =
      [Event.statusCheck 0 false, Event.wakeCommand 0, Event.statusCheck 3000 true,
        Event.mutatingPost 3000 "/5YJ3E1EA7JF000001/command/lock"] := by
    simp only [command, ensureAwake, h0, Bool.false_eq_true, if_false, h1]
    rfl
  refine ⟨h2, ?_⟩
  rw [h2]
  decide

/-- C1 (amended): for every mutating operation, wherever the dispatcher's
trace contains a mutating POST, at least one wake-status check precedes it,
the event immediately before it is a wake-status check reporting awake (the
first check on the fast path, the successful poll check otherwise), nothing
follows it, the orchestration outcome is ready, and the POST is sent exactly
once. -/
theorem C1_wake_gate (vin : String) (awake : Nat → Bool) (p : String)
    (pre rest : List Event) (t : Nat) (q : String)
    (hsplit : (command vin awake p).1 = pre ++ Event.mutatingPost t q :: rest) :
    1 ≤ pre.countP Event.isCheck ∧
    (∃ t2, pre.getLast? = some (Event.statusCheck t2 true)) ∧
    rest = [] ∧
    (command vin awake p).2.1 = WakeOutcome.ready ∧
    (command vin awake p).1.countP Event.isPost = 1 := by
  cases hout : (ensureAwake vin awake).2.1 with
  | timedOut m =>
    exfalso
    have htr : (command vin awake p).1 = (ensureAwake vin awake).1 := by
      simp only [command, hout]
    have hcount := ensureAwake_no_post vin awake
    rw [← htr, hsplit, List.countP_append, List.countP_cons] at hcount
    simp [Event.isPost] at hcount
  | ready =>
    have htr : (command vin awake p).1 =
        (ensureAwake vin awake).1 ++ [Event.mutatingPost (ensureAwake vin awake).2.2 p] := by
      simp only [command, hout]
    have hcount1 : (command vin awake p).1.countP Event.isPost = 1 := by
      rw [htr, List.countP_append, ensureAwake_no_post]
      simp [Event.isPost]
    have hrest : rest = [] := by
      by_contra hne
      have hc2 := hcount1
      rw [hsplit, List.countP_append, List.countP_cons] at hc2
      simp only [Event.isPost, if_true] at hc2
      have hpr : pre.countP Event.isPost = 0 ∧ rest.countP Event.isPost = 0 := by
        constructor <;> omega
      have hlastL : ((ensureAwake vin awake).1 ++
          [Event.mutatingPost (ensureAwake vin awake).2.2 p]).getLast? =
          some (Event.mutatingPost (ensureAwake vin awake).2.2 p) :=
        List.getLast?_concat _
      have hlastR : (pre ++ Event.mutatingPost t q :: rest).getLast? = rest.getLast? := by
        rw [List.getLast?_append_cons]
        cases rest with
        | nil => exact absurd rfl hne
        | cons z zs => rw [List.getLast?_cons_cons]
      have heq : rest.getLast? =
          some (Event.mutatingPost (ensureAwake vin awake).2.2 p) := by
        rw [← hlastR, ← hsplit, htr, hlastL]
      have hmem := List.mem_of_getLast?_eq_some heq
      have hner : rest.countP Event.isPost ≠ 0 := by
        intro hzero
        rw [List.countP_eq_zero] at hzero
        exact hzero _ hmem (by simp [Event.isPost])
      exact hner hpr.2
    subst hrest
    have hlen : pre.length = (ensureAwake vin awake).1.length := by
      have hcl := congrArg List.length hsplit
      rw [htr] at hcl
      simp at hcl
      omega
    have hinj := List.append_inj (hsplit ▸ htr.symm) hlen.symm
    have hpre : pre = (ensureAwake vin awake).1 := hinj.1.symm
    have hlast := ensureAwake_ready_last vin awake hout
    refine ⟨?_, ?_, rfl, ?_, hcount1⟩
    · rw [hpre]
      have hpos : 0 < (ensureAwake vin awake).1.countP Event.isCheck := by
        rw [List.countP_pos_iff]
        refine ⟨Event.statusCheck (ensureAwake vin awake).2.2 true,
          List.mem_of_getLast?_eq_some hlast, ?_⟩
        simp [Event.isCheck]
      omega
    · exact ⟨(ensureAwake vin awake).2.2, hpre ▸ hlast⟩
    · simp only [command, hout]

/-- C1 witness: the wake gate theorem applied to an already-awake vehicle
issuing a lock command. -/
theorem C1_witness :
    ((command "5YJ3E1EA7JF000001" (fun _ => true) "/5YJ3E1EA7JF000001/command/lock").1 =
      [Event.statusCheck 0 true] ++
        Event.mutatingPost 0 "/5YJ3E1EA7JF000001/command/lock" :: []) ∧
    (1 ≤ ([Event.statusCheck 0 true] : List Event).countP Event.isCheck ∧
      (∃ t2, ([Event.statusCheck 0 true] : List Event).getLast? =
        some (Event.statusCheck t2 true)) ∧
      ([] : List Event) = [] ∧
      (command "5YJ3E1EA7JF000001" (fun _ => true) "/5YJ3E1EA7JF000001/command/lock").2.1 =
        WakeOutcome.ready ∧
      (command "5YJ3E1EA7JF000001" (fun _ => true)
        "/5YJ3E1EA7JF000001/command/lock").1.countP Event.isPost = 1) :=
  ⟨rfl, C1_wake_gate "5YJ3E1EA7JF000001" (fun _ => true) "/5YJ3E1EA7JF000001/command/lock"
    [Event.statusCheck 0 true] [] 0 "/5YJ3E1EA7JF000001/command/lock" rfl⟩

/-- C2: when the first wake-status check reports awake, the orchestration
performs exactly one status check, issues no wake command, enters no poll
iteration (the trace is that single check), succeeds, and adds no latency. -/
theorem C2_fast_path (vin : String) (awake : Nat → Bool) (h : awake 0 = true) :
    (ensureAwake vin awake).1 = [Event.statusCheck 0 true] ∧
    (ensureAwake vin awake).1.countP Event.isCheck = 1 ∧
    (ensureAwake vin awake).1.countP Event.isWake = 0 ∧
    (ensureAwake vin awake).2.1 = WakeOutcome.ready ∧
    (ensureAwake vin awake).2.2 = 0 := by
  refine ⟨?_, ?_, ?_, ?_, ?_⟩ <;>
    simp [ensureAwake, h, Event.isCheck, Event.isWake, List.countP_cons]

/-- C2 witness: the fast path on an always-awake oracle. -/
theorem C2_witness :
    ((fun _ : Nat => true) 0 = true) ∧
    ((ensureAwake "5YJ3E1EA7JF000001" (fun _ => true)).1 = [Event.statusCheck 0 true] ∧
      (ensureAwake "5YJ3E1EA7JF000001" (fun _ => true)).1.countP Event.isCheck = 1 ∧
      (ensureAwake "5YJ3E1EA7JF000001" (fun _ => true)).1.countP Event.isWake = 0 ∧
      (ensureAwake "5YJ3E1EA7JF000001" (fun _ => true)).2.1 = WakeOutcome.ready ∧
      (ensureAwake "5YJ3E1EA7JF000001" (fun _ => true)).2.2 = 0) :=
  ⟨rfl, C2_fast_path "5YJ3E1EA7JF000001" (fun _ => true) rfl⟩

/-- C3: when no wake-status check ever reports awake, the orchestration
performs the initial check, issues the wake command exactly once, re-checks
at consecutive 3-second interval multiples (the explicit trace), fails with
the timeout error naming the vehicle, the 90-second ceiling and the manual
`wake_vehicle` retry, and terminates between 90 seconds and 90 seconds plus
one interval after polling began. -/
theorem C3_timeout_bound (vin : String) (awake : Nat → Bool) (hfa : ∀ n, awake n = false) :
    (ensureAwake vin awake).1 =
      Event.statusCheck 0 false :: Event.wakeCommand 0 ::
        (List.range 30).map
          (fun i => Event.statusCheck (WAKE_POLL_INTERVAL_MS * (i + 1)) false) ∧
    (ensureAwake vin awake).1.countP Event.isWake = 1 ∧
    (ensureAwake vin awake).2.1 =
      WakeOutcome.timedOut
        ("Vehicle " ++ vin ++
          " did not wake within 90s. Try calling wake_vehicle manually and retrying.") ∧
    WAKE_TIMEOUT_MS ≤ (ensureAwake vin awake).2.2 ∧
    (ensureAwake vin awake).2.2 ≤ WAKE_TIMEOUT_MS + WAKE_POLL_INTERVAL_MS := by
  have h0 : ¬ awake 0 = true := by simp [hfa 0]
  have hp := pollLoop_never vin awake hfa 30 1 0 (by omega)
  rw [Nat.mul_zero] at hp
  have hmap : (List.range 30).map
      (fun i => Event.statusCheck (WAKE_POLL_INTERVAL_MS * (0 + i + 1)) false) =
      (List.range 30).map
        (fun i => Event.statusCheck (WAKE_POLL_INTERVAL_MS * (i + 1)) false) := by
    apply List.map_congr_left
    intro i _
    norm_num
  rw [hmap] at hp
  refine ⟨?_, ?_, ?_, ?_, ?_⟩
  · simp only [ensureAwake, if_neg h0, hp]
  · simp only [ensureAwake, if_neg h0, hp]
    simp only [List.countP_cons, List.countP_map]
    have hz : (List.range 30).countP
        (Event.isWake ∘ fun i => Event.statusCheck (WAKE_POLL_INTERVAL_MS * (i + 1)) false) = 0 := by
      rw [List.countP_eq_zero]
      intro a _
      simp [Event.isWake]
    rw [hz]
    simp [Event.isWake]
  · simp only [ensureAwake, if_neg h0, hp]
    rw [wakeTimeoutMessage_eq]
  · simp only [ensureAwake, if_neg h0, hp]
    exact Nat.le_refl _
  · simp only [ensureAwake, if_neg h0, hp]
    simp [WAKE_TIMEOUT_MS, WAKE_POLL_INTERVAL_MS]

/-- C3 witness: the timeout bound applied to a never-awake oracle. -/
theorem C3_witness :
    (∀ n, (fun _ : Nat => false) n = false) ∧
    ((ensureAwake "5YJ3E1EA7JF000001" (fun _ => false)).1 =
      Event.statusCheck 0 false :: Event.wakeCommand 0 ::
        (List.range 30).map
          (fun i => Event.statusCheck (WAKE_POLL_INTERVAL_MS * (i + 1)) false) ∧
    (ensureAwake "5YJ3E1EA7JF000001" (fun _ => false)).1.countP Event.isWake = 1 ∧
    (ensureAwake "5YJ3E1EA7JF000001" (fun _ => false)).2.1 =
      WakeOutcome.timedOut
        ("Vehicle " ++ "5YJ3E1EA7JF000001" ++
          " did not wake within 90s. Try calling wake_vehicle manually and retrying.") ∧
    WAKE_TIMEOUT_MS ≤ (ensureAwake "5YJ3E1EA7JF000001" (fun _ => false)).2.2 ∧
    (ensureAwake "5YJ3E1EA7JF000001" (fun _ => false)).2.2 ≤
      WAKE_TIMEOUT_MS + WAKE_POLL_INTERVAL_MS) :=
  ⟨fun _ => rfl, C3_timeout_bound "5YJ3E1EA7JF000001" (fun _ => false) (fun _ => rfl)⟩

/-- C4: VIN resolution of every vehicle-scoped operation — a given (nonempty)
explicit VIN wins over any configured default; with no explicit VIN a
configured (nonempty) default is used; with neither, the operation fails with
the VIN-required error and issues no request at all. -/
theorem C4_vin_resolution {ρ : Type} (handler : String → List HttpReq × ρ)
    (v d : String) (dflt : Option String) (hv : v ≠ "") (hd : d ≠ "") :
    runVehicleTool (some v) dflt handler = ((handler v).1, Except.ok (handler v).2) ∧
    runVehicleTool none (some d) handler = ((handler d).1, Except.ok (handler d).2) ∧
    runVehicleTool none none handler = ([], Except.error vinRequiredMessage) := by
  refine ⟨?_, ?_, rfl⟩
  · simp [runVehicleTool, resolveVin, jsOrString, hv]
  · simp [runVehicleTool, resolveVin, jsOrString, hd]

/-- C4 witness: VIN resolution on the status read with concrete VINs. -/
theorem C4_witness :
    ("5YJ3E1EA7JF000001" ≠ "") ∧ ("LRW3E7EK4MC000002" ≠ "") ∧
    runVehicleTool (some "5YJ3E1EA7JF000001") (some "LRW3E7EK4MC000002") statusHandler =
      ((statusHandler "5YJ3E1EA7JF000001").1, Except.ok (statusHandler "5YJ3E1EA7JF000001").2) ∧
    runVehicleTool none (some "LRW3E7EK4MC000002") statusHandler =
      ((statusHandler "LRW3E7EK4MC000002").1, Except.ok (statusHandler "LRW3E7EK4MC000002").2) ∧
    runVehicleTool none none statusHandler = ([], Except.error vinRequiredMessage) := by
  refine ⟨by decide, by decide, ?_⟩
  exact C4_vin_resolution statusHandler "5YJ3E1EA7JF000001" "LRW3E7EK4MC000002"
    (some "LRW3E7EK4MC000002") (by decide) (by decide)

/-- C5: the cited read-only tools (`get_vehicle_state`, `get_location`) call
the transport client directly — any request they issue is a single GET of
their own endpoint, which is neither the wake command nor the wake-status
endpoint, and at most one request is issued, so no wake command or
wake-status check precedes the data request. -/
theorem C5_read_bypass (token : Option String) (vin : String) (uc : Option Bool)
    (respA respB : HttpResp) (r : HttpReq)
    (hr : r ∈ (get_vehicle_state token vin uc respA).1 ∨ r ∈ (get_location token vin respB).1) :
    r.method = "GET" ∧
    (r.path = "/" ++ vin ++ "/state" ∨ r.path = "/" ++ vin ++ "/location") ∧
    r.path ≠ "/" ++ vin ++ "/wake" ∧
    r.path ≠ "/" ++ vin ++ "/status" ∧
    (get_vehicle_state token vin uc respA).1.length ≤ 1 ∧
    (get_location token vin respB).1.length ≤ 1 := by
  have hlen : ∀ a b : String, a.length ≠ b.length → a ≠ b :=
    fun a b h heq => h (heq ▸ rfl)
  have hst : ("/state" : String).length = 6 := rfl
  have hloc : ("/location" : String).length = 9 := rfl
  have hwk : ("/wake" : String).length = 5 := rfl
  have hsu : ("/status" : String).length = 7 := rfl
  have hA : (get_vehicle_state token vin uc respA).1.length ≤ 1 := by
    rw [get_vehicle_state, get, tessieRequest_reqs]
    cases token <;> simp
  have hB : (get_location token vin respB).1.length ≤ 1 := by
    rw [get_location, get, tessieRequest_reqs]
    cases token <;> simp
  cases hr with
  | inl h =>
    rw [get_vehicle_state, get, tessieRequest_reqs] at h
    cases token with
    | none => simp at h
    | some t =>
      simp only [List.mem_singleton] at h
      subst h
      refine ⟨rfl, Or.inl rfl, ?_, ?_, hA, hB⟩
      · apply hlen
        simp only [String.length_append, hst, hwk]
        omega
      · apply hlen
        simp only [String.length_append, hst, hsu]
        omega
  | inr h =>
    rw [get_location, get, tessieRequest_reqs] at h
    cases token with
    | none => simp at h
    | some t =>
      simp only [List.mem_singleton] at h
      subst h
      refine ⟨rfl, Or.inr rfl, ?_, ?_, hA, hB⟩
      · apply hlen
        simp only [String.length_append, hloc, hwk]
        omega
      · apply hlen
        simp only [String.length_append, hloc, hsu]
        omega

/-- C5 witness: the single request of a concrete `get_vehicle_state` call. -/
theorem C5_witness :
    wStateReq ∈ (get_vehicle_state (some "tok") "5YJ3E1EA7JF000001" (some true) wStateResp).1 ∧
    (wStateReq.method = "GET" ∧
      (wStateReq.path = "/" ++ "5YJ3E1EA7JF000001" ++ "/state" ∨
        wStateReq.path = "/" ++ "5YJ3E1EA7JF000001" ++ "/location") ∧
      wStateReq.path ≠ "/" ++ "5YJ3E1EA7JF000001" ++ "/wake" ∧
      wStateReq.path ≠ "/" ++ "5YJ3E1EA7JF000001" ++ "/status" ∧
      (get_vehicle_state (some "tok") "5YJ3E1EA7JF000001" (some true) wStateResp).1.length ≤ 1 ∧
      (get_location (some "tok") "5YJ3E1EA7JF000001" wLocResp).1.length ≤ 1) := by
  constructor
  · decide
  · exact C5_read_bypass (some "tok") "5YJ3E1EA7JF000001" (some true) wStateResp wLocResp
      wStateReq (Or.inl (by decide))

/-- C6: in the composite fan-out read, when the location read fails (non-2xx)
and the other two succeed, the aggregated result carries the two successful
payloads, an error descriptor for the location slot, the overall handler
still returns successfully, and all three requests are issued. -/
theorem C6_fan_out (tok vin : String) (rb rl rs : HttpResp)
    (hbOk : 200 ≤ rb.status ∧ rb.status ≤ 299) (hbJson : rb.contentTypeJson = true)
    (hlFail : ¬ (200 ≤ rl.status ∧ rl.status ≤ 299))
    (hsOk : 200 ≤ rs.status ∧ rs.status ≤ 299) (hsJson : rs.contentTypeJson = true) :
    (get_full_status (some tok) vin rb rl rs).2 =
      Except.ok { battery := Except.ok (RespVal.json rb.body),
                  location := Except.error (remoteErrorMessage rl.status rl.body),
                  state := Except.ok (RespVal.json rs.body) } ∧
    (get_full_status (some tok) vin rb rl rs).1.length = 3 := by
  constructor
  · simp [get_full_status, get, tessieRequest, hbOk, hbJson, hlFail, hsOk, hsJson]
  · simp [get_full_status, get, tessieRequest, hbOk, hbJson, hlFail, hsOk, hsJson]

/-- C6 witness: a concrete run where the location lookup returns HTTP 500. -/
theorem C6_witness :
    (200 ≤ 200 ∧ 200 ≤ 299) ∧ ¬ (200 ≤ 500 ∧ 500 ≤ 299) ∧
    (get_full_status (some "tok") "5YJ3E1EA7JF000001"
        { status := 200, contentTypeJson := true, body := "batteryJson" }
        { status := 500, contentTypeJson := false, body := "internal error" }
        { status := 200, contentTypeJson := true, body := "stateJson" }).2 =
      Except.ok { battery := Except.ok (RespVal.json "batteryJson"),
                  location := Except.error "Tessie API error 500: internal error",
                  state := Except.ok (RespVal.json "stateJson") } ∧
    (get_full_status (some "tok") "5YJ3E1EA7JF000001"
        { status := 200, contentTypeJson := true, body := "batteryJson" }
        { status := 500, contentTypeJson := false, body := "internal error" }
        { status := 200, contentTypeJson := true, body := "stateJson" }).1.length = 3 := by
  refine ⟨by decide, by decide, ?_, ?_⟩
  · have h := (C6_fan_out "tok" "5YJ3E1EA7JF000001"
      { status := 200, contentTypeJson := true, body := "batteryJson" }
      { status := 500, contentTypeJson := false, body := "internal error" }
      { status := 200, contentTypeJson := true, body := "stateJson" }
      (by decide) rfl (by decide) (by decide) rfl).1
    simpa [remoteErrorMessage] using h
  · exact (C6_fan_out "tok" "5YJ3E1EA7JF000001"
      { status := 200, contentTypeJson := true, body := "batteryJson" }
      { status := 500, contentTypeJson := false, body := "internal error" }
      { status := 200, contentTypeJson := true, body := "stateJson" }
      (by decide) rfl (by decide) (by decide) rfl).2

/-- C7: a non-2xx response makes the transport fail with the error carrying
the HTTP status code and the exact raw body text, returned to the caller,
with exactly one request issued (no retry). -/
theorem C7_remote_error (tok method pathArg : String) (params : List (String × Option Scalar))
    (resp : HttpResp) (hfail : ¬ (200 ≤ resp.status ∧ resp.status ≤ 299)) :
    tessieRequest (some tok) method pathArg params resp =
      ([{ method := method, path := pathArg, query := buildQuery params }],
       Except.error ("Tessie API error " ++ toString resp.status ++ ": " ++ resp.body)) := by
  simp [tessieRequest, hfail, remoteErrorMessage]

/-- C7 witness: the lock command receiving HTTP 503 with body
"service unavailable". -/
theorem C7_witness :
    (¬ (200 ≤ 503 ∧ 503 ≤ 299)) ∧
    tessieRequest (some "tok") "POST" "/5YJ3E1EA7JF000001/command/lock"
        [("wait_for_completion", none), ("max_attempts", none)]
        { status := 503, contentTypeJson := false, body := "service unavailable" } =
      ([{ method := "POST", path := "/5YJ3E1EA7JF000001/command/lock", query := [] }],
       Except.error "Tessie API error 503: service unavailable") := by
  constructor
  · decide
  · have h := C7_remote_error "tok" "POST" "/5YJ3E1EA7JF000001/command/lock"
      [("wait_for_completion", none), ("max_attempts", none)]
      { status := 503, contentTypeJson := false, body := "service unavailable" } (by decide)
    simpa using h

/-- C8: with no bearer credential configured, every transport invocation
fails with the configuration error and issues no outbound request at all. -/
theorem C8_missing_token (method pathArg : String) (params : List (String × Option Scalar))
    (resp : HttpResp) :
    tessieRequest none method pathArg params resp = ([], Except.error configErrorMessage) := rfl

/-- C9: a query key appears in the built query string exactly when its value
is present (an absent value yields no key at all, not an empty or "undefined"
serialization), and every present value is included stringified. -/
theorem C9_query_omission (params : List (String × Option Scalar)) :
    (∀ k, (∃ s, (k, s) ∈ buildQuery params) ↔ ∃ v, (k, some v) ∈ params) ∧
    (∀ k v, (k, some v) ∈ params → (k, scalarToString v) ∈ buildQuery params) ∧
    (∀ k, (k, (none : Option Scalar)) ∈ params → (∀ v, (k, some v) ∉ params) →
      ∀ s, (k, s) ∉ buildQuery params) := by
  refine ⟨fun k => ?_, fun k v hv => ?_, fun k _ hno s hs => ?_⟩
  · constructor
    · rintro ⟨s, hs⟩
      obtain ⟨v, hv, -⟩ := (mem_buildQuery_iff params k s).1 hs
      exact ⟨v, hv⟩
    · rintro ⟨v, hv⟩
      exact ⟨scalarToString v, (mem_buildQuery_iff params k _).2 ⟨v, hv, rfl⟩⟩
  · exact (mem_buildQuery_iff params k _).2 ⟨v, hv, rfl⟩
  · obtain ⟨v, hv, -⟩ := (mem_buildQuery_iff params k s).1 hs
    exact hno v hv

/-- C9 witness: a present parameter is serialized and an absent one leaves no
key behind, on a concrete parameter list. -/
theorem C9_witness :
    ((("a", some (Scalar.num 3)) ∈
        [("a", some (Scalar.num 3)), ("b", (none : Option Scalar))]) ∧
      ("a", "3") ∈ buildQuery [("a", some (Scalar.num 3)), ("b", (none : Option Scalar))]) ∧
    (("b", (none : Option Scalar)) ∈
        [("a", some (Scalar.num 3)), ("b", (none : Option Scalar))] ∧
      ¬ ("b", "undefined") ∈ buildQuery [("a", some (Scalar.num 3)), ("b", (none : Option Scalar))]) := by
  refine ⟨⟨by decide, ?_⟩, ⟨by decide, ?_⟩⟩
  · exact (C9_query_omission [("a", some (Scalar.num 3)), ("b", none)]).2.1 "a" (Scalar.num 3) (by decide)
  · exact (C9_query_omission [("a", some (Scalar.num 3)), ("b", none)]).2.2 "b" (by decide)
      (by intro v hmem; simp at hmem) "undefined"

/-- C10: an explicit empty-string VIN is treated exactly like an absent VIN —
resolution is unchanged by replacing it with no argument, a configured
(nonempty) default wins over it, and with no default the operation fails with
the VIN-required error before any request. -/
theorem C10_empty_vin {ρ : Type} (dflt : Option String)
    (handler : String → List HttpReq × ρ) (d : String) (hd : d ≠ "") :
    runVehicleTool (some "") dflt handler = runVehicleTool none dflt handler ∧
    runVehicleTool (some "") (some d) handler = ((handler d).1, Except.ok (handler d).2) ∧
    runVehicleTool (some "") none handler = ([], Except.error vinRequiredMessage) := by
  refine ⟨rfl, ?_, rfl⟩
  simp [runVehicleTool, resolveVin, jsOrString, hd]

/-- C10 witness: the empty explicit VIN with and without a configured
default. -/
theorem C10_witness :
    ("LRW3E7EK4MC000002" ≠ "") ∧
    runVehicleTool (some "") (some "LRW3E7EK4MC000002") statusHandler =
      runVehicleTool none (some "LRW3E7EK4MC000002") statusHandler ∧
    runVehicleTool (some "") (some "LRW3E7EK4MC000002") statusHandler =
      ((statusHandler "LRW3E7EK4MC000002").1, Except.ok (statusHandler "LRW3E7EK4MC000002").2) ∧
    runVehicleTool (some "") none statusHandler = ([], Except.error vinRequiredMessage) := by
  refine ⟨by decide, ?_⟩
  have h := C10_empty_vin (some "LRW3E7EK4MC000002") statusHandler "LRW3E7EK4MC000002" (by decide)
  exact ⟨h.1, h.2.1, h.2.2⟩

end Tessie
